import Mathlib

/-!
Shallow embedding of the edscribe-api order/pricing core.

Sources embedded here:
* `src/models/PricingRule.js` — the static `calculatePrice` (rule lookups,
  multiplicative composition, 2-decimal rounding).
* `src/controllers/orderController.js` — `createOrder` (urgency derivation,
  price preparation, orderNumber-collision retry loop), `updateOrder`,
  `cancelOrder`, `reviewOrder`.
* `src/unnamed/part_002` (Order model) — the `pre` save hook that appends the
  initial `statusHistory` entry on a new document.

Modelling conventions: JavaScript numbers are modelled as `ℚ` (all values
involved are produced by arithmetic on decimal literals); `Date` values are
milliseconds since the epoch as `ℤ`; a JavaScript field that may be `undefined`
is an `Option`; JavaScript truthiness on strings/numbers (`""` and `0` are
falsy) is made explicit in the `jsOrStr` / `jsOrNum` helpers. Mongoose
`findOne` on a collection is `List.find?` over the stored rule list. Fields of
`PricingRule` and `Order` never read by the embedded operations (display
metadata, attachments, payment fields, timestamps managed by mongoose) are
omitted. HTTP error responses are modelled as a status code plus the exact
message string from the source.
-/

namespace Edscribe

/-- Order lifecycle status, the `status` enum of the Order schema. -/
inductive Status
  | pending
  | in_progress
  | review
  | completed
  | cancelled
deriving DecidableEq

/-- String constants appearing in the source. -/
def catEducationLevel : String := "education_level"

def catTaskType : String := "task_type"

def catUrgency : String := "urgency"

def catComplexity : String := "complexity"

def catCitationStyle : String := "citation_style"

def baseRuleName : String := "base_price_per_page"

def strStandard : String := "standard"

def strRush : String := "rush"

def strUrgent : String := "urgent"

def roleAdmin : String := "admin"

def strNone : String := "none"

/-- Response message strings from `src/controllers/orderController.js`. -/
def msgServerErrorCreating : String := "Server error creating order"

def msgNotAuthorizedUpdate : String := "Not authorized to update this order"

def msgStudentsOnlyCancel : String := "Students can only cancel orders"

def msgCannotCancelThis : String := "Cannot cancel this order"

def msgCancelledByStudent : String := "Cancelled by student"

def msgStatusUpdatedByAdmin : String := "Status updated by admin"

def msgNotAuthorizedCancel : String := "Not authorized to cancel this order"

def msgOrderCannotBeCancelled : String := "This order cannot be cancelled"

def msgNotAuthorizedReview : String := "Not authorized to review this order"

def msgOnlyReviewCompleted : String := "Can only review completed orders"

def msgAlreadyReviewed : String := "Order has already been reviewed"

def msgOrderCreated : String := "Order created"

/-- `PricingRule` document: the fields read by `calculatePrice`
(`name`, `category`, `appliesTo`, `multiplier`, `basePrice`, `isActive`). -/
structure PricingRule where
  name : String
  category : String
  appliesTo : String
  multiplier : ℚ
  basePrice : ℚ
  isActive : Bool
deriving DecidableEq

/-- JS `x || d` on an optional string (`""` is falsy). -/
def jsOrStr (x : Option String) (d : String) : String :=
  match x with
  | none => d
  | some s => if s = "" then d else s

/-- JS `x || d` on an optional number (`0` is falsy). -/
def jsOrNum (x : Option ℚ) (d : ℚ) : ℚ :=
  match x with
  | none => d
  | some v => if v = 0 then d else v

/-- `this.findOne({ category, appliesTo, isActive: true })` over the rule
collection. -/
def findOneRule (rules : List PricingRule) (category appliesTo : String) :
    Option PricingRule :=
  rules.find? fun r => r.category = category ∧ r.appliesTo = appliesTo ∧ r.isActive

/-- `this.findOne({ name: "base_price_per_page", isActive: true })`. -/
def findBaseRule (rules : List PricingRule) : Option PricingRule :=
  rules.find? fun r => r.name = baseRuleName ∧ r.isActive

/-- The effective per-page base rate:
`let basePricePerPage = 15; if (baseRule) basePricePerPage = baseRule.basePrice || basePricePerPage`.
JS `||` treats `0` as falsy, so a stored base price of `0` keeps the default 15. -/
def basePricePerPageOf (rules : List PricingRule) : ℚ :=
  match findBaseRule rules with
  | some baseRule => if baseRule.basePrice = 0 then 15 else baseRule.basePrice
  | none => 15

/-- JS `Math.round` (round half toward `+∞`). -/
def jsRound (q : ℚ) : ℤ := ⌊q + 1 / 2⌋

/-- `Math.round(totalPrice * 100) / 100`. -/
def round2 (q : ℚ) : ℚ := ((jsRound (q * 100) : ℤ) : ℚ) / 100

/-- The pricing-relevant attributes of an order draft (`orderData` as consumed
by `PricingRule.calculatePrice`). -/
structure OrderData where
  educationLevel : String
  taskType : String
  urgency : Option String
  complexityLevel : Option String
  citationStyle : Option String
  pageCount : Option ℚ
deriving DecidableEq

/-- `pricingRuleSchema.statics.calculatePrice` from `src/models/PricingRule.js`:
base rate × page count, then education / task / urgency / complexity /
citation multipliers applied in order (a missing rule leaves the price
unchanged), then rounding to 2 decimal places. -/
def calculatePrice (rules : List PricingRule) (od : OrderData) : ℚ :=
  let basePricePerPage := basePricePerPageOf rules
  let pageCount := jsOrNum od.pageCount 1
  let p1 := basePricePerPage * pageCount
  let p2 :=
    match findOneRule rules catEducationLevel od.educationLevel with
    | some r => p1 * r.multiplier
    | none => p1
  let p3 :=
    match findOneRule rules catTaskType od.taskType with
    | some r => p2 * r.multiplier
    | none => p2
  let p4 :=
    match findOneRule rules catUrgency (jsOrStr od.urgency strStandard) with
    | some r => p3 * r.multiplier
    | none => p3
  let p5 :=
    match findOneRule rules catComplexity (jsOrStr od.complexityLevel strStandard) with
    | some r => p4 * r.multiplier
    | none => p4
  let p6 :=
    match od.citationStyle with
    | some s =>
      if s ≠ "" ∧ s ≠ "none" then
        match findOneRule rules catCitationStyle s with
        | some r => p5 * r.multiplier
        | none => p5
      else p5
    | none => p5
  round2 p6

/-- The multiplier a single category lookup contributes: the matched rule's
multiplier, or 1 when no active rule matches. -/
def multiplierFor (rules : List PricingRule) (category appliesTo : String) : ℚ :=
  match findOneRule rules category appliesTo with
  | some r => r.multiplier
  | none => 1

/-- The citation-style factor: looked up only when `citationStyle` is present,
truthy and not `"none"`; otherwise 1. -/
def citationFactor (rules : List PricingRule) (od : OrderData) : ℚ :=
  match od.citationStyle with
  | some s => if s ≠ "" ∧ s ≠ "none" then multiplierFor rules catCitationStyle s else 1
  | none => 1

/-- `calculatePrice` factored as a product of per-category multipliers:
every step of the algorithm contributes its matched rule's multiplier, or
exactly 1 when no active rule matches. -/
theorem calculatePrice_eq_product (rules : List PricingRule) (od : OrderData) :
    calculatePrice rules od =
      round2 (basePricePerPageOf rules * jsOrNum od.pageCount 1 *
        multiplierFor rules catEducationLevel od.educationLevel *
        multiplierFor rules catTaskType od.taskType *
        multiplierFor rules catUrgency (jsOrStr od.urgency strStandard) *
        multiplierFor rules catComplexity (jsOrStr od.complexityLevel strStandard) *
        citationFactor rules od) := by
  rcases h1 : findOneRule rules catEducationLevel od.educationLevel with _ | r1 <;>
    rcases h2 : findOneRule rules catTaskType od.taskType with _ | r2 <;>
    rcases h3 : findOneRule rules catUrgency (jsOrStr od.urgency strStandard) with _ | r3 <;>
    rcases h4 : findOneRule rules catComplexity (jsOrStr od.complexityLevel strStandard)
      with _ | r4 <;>
    rcases h5 : od.citationStyle with _ | s <;>
    simp only [calculatePrice, multiplierFor, citationFactor, h1, h2, h3, h4, h5, mul_one] <;>
    first
      | rfl
      | (split <;>
          first
            | rfl
            | (rcases h6 : findOneRule rules catCitationStyle s with _ | r6 <;>
                simp only [h6, mul_one]))

/-- The creation request body fields consumed by `createOrder` before
persistence (`req.body` merged with the authenticated student id; `deadline`
in milliseconds since the epoch). -/
structure CreateBody where
  educationLevel : String
  taskType : String
  urgency : Option String
  complexityLevel : Option String
  citationStyle : Option String
  pageCount : Option ℚ
  deadline : ℤ
deriving DecidableEq

/-- The pricing-relevant projection of a creation body, as handed to
`PricingRule.calculatePrice` by `createOrder` (the urgency slot still holds
whatever the caller supplied). -/
def toPricingData (b : CreateBody) : OrderData :=
  { educationLevel := b.educationLevel
    taskType := b.taskType
    urgency := b.urgency
    complexityLevel := b.complexityLevel
    citationStyle := b.citationStyle
    pageCount := b.pageCount }

/-- `const hoursUntilDeadline = (deadline - now) / (1000 * 60 * 60)`. -/
def hoursUntilDeadline (deadline now : ℤ) : ℚ :=
  ((deadline - now : ℤ) : ℚ) / (1000 * 60 * 60)

/-- The urgency derivation in `createOrder`: `urgent` within 24 hours,
`rush` within 72 hours, `standard` beyond. -/
def deriveUrgency (deadline now : ℤ) : String :=
  if hoursUntilDeadline deadline now ≤ 24 then strUrgent
  else if hoursUntilDeadline deadline now ≤ 72 then strRush
  else strStandard

/-- The order fields `createOrder` fills in before calling `Order.create`:
price first (from the body as supplied), then the derived urgency
overwriting `orderData.urgency`. -/
structure PreparedOrder where
  totalPrice : ℚ
  basePrice : ℚ
  urgency : String
deriving DecidableEq

/-- Lines 19–35 of `src/controllers/orderController.js`: the price is computed
from `orderData` first (`basePrice = totalPrice / 1`), and only afterwards is
`orderData.urgency` overwritten with the value derived from the deadline. -/
def prepareOrderData (rules : List PricingRule) (b : CreateBody) (now : ℤ) :
    PreparedOrder :=
  let totalPrice := calculatePrice rules (toPricingData b)
  { totalPrice := totalPrice
    basePrice := totalPrice / 1
    urgency := deriveUrgency b.deadline now }

/-- Outcome of one `Order.create` attempt, as discriminated by the retry loop:
success, an E11000 duplicate-key error on `orderNumber`, or any other
persistence failure. -/
inductive AttemptResult
  | success
  | dupKeyOrderNumber
  | otherFailure
deriving DecidableEq

/-- Result of the creation retry loop: an order persisted on the n-th create
attempt, the attempt budget exhausted by collisions, or an unexpected failure
rethrown out of the loop. -/
inductive CreateResult
  | created (attemptsMade : ℕ)
  | exhausted
  | unexpectedFailure
deriving DecidableEq

/-- The `while (!order && attempts < 3)` loop of `createOrder`: `outcomes i`
is what the (i+1)-th `Order.create` call does. A duplicate `orderNumber`
increments `attempts` and retries; any other error is rethrown (caught by the
surrounding handler); fuel bounds the recursion and matches the attempt
budget. -/
def createLoop (outcomes : ℕ → AttemptResult) : ℕ → ℕ → CreateResult
  | 0, _ => .exhausted
  | fuel + 1, attempts =>
    if attempts < 3 then
      match outcomes attempts with
      | .success => .created (attempts + 1)
      | .dupKeyOrderNumber => createLoop outcomes fuel (attempts + 1)
      | .otherFailure => .unexpectedFailure
    else .exhausted

/-- The full retry loop as entered by `createOrder` (`attempts = 0`). -/
def createWithRetry (outcomes : ℕ → AttemptResult) : CreateResult :=
  createLoop outcomes 3 0

/-- An HTTP error response (status code plus the `error` message string). -/
structure HttpError where
  status : ℕ
  error : String
deriving DecidableEq

/-- Whether a creation outcome persists an order. -/
def persistsOrder : CreateResult → Bool
  | .created _ => true
  | .exhausted => false
  | .unexpectedFailure => false

/-- The failure response `createOrder` sends for each non-success outcome:
both the exhausted loop (line 52–57) and the catch-all handler (line 66–72)
send status 500 with the identical message. -/
def createFailureResponse : CreateResult → Option HttpError
  | .created _ => none
  | .exhausted => some { status := 500, error := msgServerErrorCreating }
  | .unexpectedFailure => some { status := 500, error := msgServerErrorCreating }

/-- One `statusHistory` entry (`{status, timestamp, note}`). -/
structure HistoryEntry where
  status : Status
  timestamp : ℤ
  note : String
deriving DecidableEq

/-- The persisted `Order` fields read or written by the embedded lifecycle
operations. `student` is the owning user's id. -/
structure Order where
  student : ℕ
  status : Status
  statusHistory : List HistoryEntry
  additionalInstructions : String
  adminNotes : String
  progress : ℚ
  rating : Option ℕ
  review : String
  reviewedAt : Option ℤ
deriving DecidableEq

/-- The authenticated actor (`req.user`): id and role string. -/
structure User where
  id : ℕ
  role : String
deriving DecidableEq

/-- The update request body fields read by `updateOrder`. An absent field is
`none`; the mongoose schema restricts a present `status` to the enum. -/
structure UpdateBody where
  status : Option Status
  additionalInstructions : Option String
  adminNotes : Option String
  progress : Option ℚ
  statusNote : Option String
deriving DecidableEq

/-- Outcome of a lifecycle controller call on a fetched order: an error
response (`res.status(n).json({error})`) leaving the persisted order
untouched, or the saved updated order. -/
inductive OpResult
  | err (status : ℕ) (msg : String)
  | ok (order : Order)
deriving DecidableEq

/-- The owner branch of `updateOrder` applies `additionalInstructions` when
the field is truthy (`if (req.body.additionalInstructions)`). -/
def applyInstructions (o : Order) (b : UpdateBody) : Order :=
  match b.additionalInstructions with
  | some s => if s = "" then o else { o with additionalInstructions := s }
  | none => o

/-- `updateOrder` from `src/controllers/orderController.js` (lines 165–254),
after the order has been fetched (the not-found branch is handled by the
caller). Owners who are not admins may only cancel or set
`additionalInstructions`; the admin branch sets `status` (appending history on
an actual change), `adminNotes`, and clamped `progress`. -/
def updateOrder (user : User) (order : Order) (b : UpdateBody) (now : ℤ) :
    OpResult :=
  let isOwner := order.student = user.id
  let isAdmin := user.role = roleAdmin
  if ¬isOwner ∧ ¬isAdmin then .err 403 msgNotAuthorizedUpdate
  else if isOwner ∧ ¬isAdmin then
    match b.status with
    | some s =>
      if s ≠ Status.cancelled then .err 403 msgStudentsOnlyCancel
      else if order.status = Status.completed ∨ order.status = Status.cancelled then
        .err 400 msgCannotCancelThis
      else
        let o1 := { order with
          status := Status.cancelled
          statusHistory := order.statusHistory ++
            [{ status := Status.cancelled, timestamp := now, note := msgCancelledByStudent }] }
        .ok (applyInstructions o1 b)
    | none => .ok (applyInstructions order b)
  else
    let o1 :=
      match b.status with
      | some s =>
        if s ≠ order.status then
          { order with
            status := s
            statusHistory := order.statusHistory ++
              [{ status := s, timestamp := now,
                 note := jsOrStr b.statusNote msgStatusUpdatedByAdmin }] }
        else order
      | none => order
    let o2 :=
      match b.adminNotes with
      | some n => { o1 with adminNotes := n }
      | none => o1
    let o3 :=
      match b.progress with
      | some p => { o2 with progress := max 0 (min 100 p) }
      | none => o2
    .ok o3

/-- `cancelOrder` (lines 259–307): ownership check only (the role is never
consulted), terminal-state conflict check, then the cancellation write. -/
def cancelOrder (user : User) (order : Order) (reason : Option String)
    (now : ℤ) : OpResult :=
  if order.student ≠ user.id then .err 403 msgNotAuthorizedCancel
  else if order.status = Status.completed ∨ order.status = Status.cancelled then
    .err 400 msgOrderCannotBeCancelled
  else
    .ok { order with
      status := Status.cancelled
      statusHistory := order.statusHistory ++
        [{ status := Status.cancelled, timestamp := now,
           note := jsOrStr reason msgCancelledByStudent }] }

/-- `reviewOrder` (lines 312–366): owner only, `completed` only, and only when
`rating` is still null; sets `rating`, `review`, `reviewedAt` in one save. -/
def reviewOrder (user : User) (order : Order) (ratingVal : ℕ)
    (reviewText : String) (now : ℤ) : OpResult :=
  if order.student ≠ user.id then .err 403 msgNotAuthorizedReview
  else if order.status ≠ Status.completed then .err 400 msgOnlyReviewCompleted
  else if order.rating ≠ none then .err 400 msgAlreadyReviewed
  else
    .ok { order with
      rating := some ratingVal
      review := reviewText
      reviewedAt := some now }

/-- The Order schema `pre` save hook on a new document (`src/unnamed/part_002`
lines 248–268): the initial `statusHistory` entry carrying the document's
current status is appended as part of creation. -/
def preSaveNew (o : Order) (now : ℤ) : Order :=
  { o with statusHistory := o.statusHistory ++
      [{ status := o.status, timestamp := now, note := msgOrderCreated }] }

/-- The history invariant: `statusHistory` is non-empty and its last entry's
status is the order's current status. -/
def historyOk (o : Order) : Prop :=
  (o.statusHistory.getLast?).map HistoryEntry.status = some o.status

instance (o : Order) : Decidable (historyOk o) := by
  unfold historyOk
  infer_instance

/-! Concrete fixtures used by the testable-property theorems. -/

/-- Active rule `education_level: phd → 3.0`. -/
def phdRule : PricingRule :=
  { name := "mult_phd", category := catEducationLevel, appliesTo := "phd",
    multiplier := 3, basePrice := 0, isActive := true }

/-- Active rule `task_type: essay → 1.0`. -/
def essayRule : PricingRule :=
  { name := "mult_essay", category := catTaskType, appliesTo := "essay",
    multiplier := 1, basePrice := 0, isActive := true }

/-- Active rule `urgency: standard → 1.0`. -/
def urgencyStdRule : PricingRule :=
  { name := "mult_urgency_std", category := catUrgency, appliesTo := strStandard,
    multiplier := 1, basePrice := 0, isActive := true }

/-- Active rule `complexity: standard → 1.0`. -/
def complexityStdRule : PricingRule :=
  { name := "mult_complexity_std", category := catComplexity, appliesTo := strStandard,
    multiplier := 1, basePrice := 0, isActive := true }

/-- The §8 multiplier-composition catalog (no active base-rate rule). -/
def catalog90 : List PricingRule := [phdRule, essayRule, urgencyStdRule, complexityStdRule]

/-- The §8 scenario attributes with `citationStyle = "none"`. -/
def od90 : OrderData :=
  { educationLevel := "phd", taskType := "essay", urgency := some strStandard,
    complexityLevel := some strStandard, citationStyle := some strNone,
    pageCount := some 2 }

/-- The §8 scenario attributes with `citationStyle` absent. -/
def od90absent : OrderData := { od90 with citationStyle := none }

/-- The §8 catalog with the `task_type: essay` rule removed. -/
def catalogNoEssay : List PricingRule := [phdRule, urgencyStdRule, complexityStdRule]

def strEssay : String := "essay"

def catPageCount : String := "page_count"

/-- An active base-rate rule whose stored `basePrice` is 0 (the schema
default for `basePrice`). -/
def zeroBaseRule : PricingRule :=
  { name := baseRuleName, category := catPageCount, appliesTo := catPageCount,
    multiplier := 1, basePrice := 0, isActive := true }

/-- One-page attributes matching no multiplier rule. -/
def odPlain : OrderData :=
  { educationLevel := "undergraduate", taskType := strEssay, urgency := none,
    complexityLevel := none, citationStyle := none, pageCount := some 1 }

/-- C2: with exactly the active rules {education_level: phd → 3.0},
{task_type: essay → 1.0}, {urgency: standard → 1.0},
{complexity: standard → 1.0}, no active base-rate rule, pageCount 2 and
citationStyle `"none"` or absent, `calculatePrice` returns exactly 90.00
(15 per page × 2 pages × 3.0, composed left-to-right, rounded to 2 decimal
places). -/
theorem c2_multiplier_composition :
    calculatePrice catalog90 od90 = 90 ∧ calculatePrice catalog90 od90absent = 90 := by
  constructor <;>
    simp [calculatePrice, catalog90, findOneRule, findBaseRule, basePricePerPageOf,
      od90, od90absent, phdRule, essayRule, urgencyStdRule, complexityStdRule,
      jsOrStr, jsOrNum, List.find?, catEducationLevel, catTaskType, catUrgency,
      catComplexity, catCitationStyle, baseRuleName, strStandard, strNone,
      round2, jsRound] <;>
    norm_num

/-- C8: `calculatePrice` is, step by step, a product of per-category
multipliers in which every category lookup that finds no active rule
contributes exactly 1; removing the `task_type: essay` rule from the 90.00
scenario leaves the result 90.00. -/
theorem c8_missing_rule_fallback :
    (∀ rules od, calculatePrice rules od =
        round2 (basePricePerPageOf rules * jsOrNum od.pageCount 1 *
          multiplierFor rules catEducationLevel od.educationLevel *
          multiplierFor rules catTaskType od.taskType *
          multiplierFor rules catUrgency (jsOrStr od.urgency strStandard) *
          multiplierFor rules catComplexity (jsOrStr od.complexityLevel strStandard) *
          citationFactor rules od)) ∧
    (∀ rules category appliesTo, findOneRule rules category appliesTo = none →
        multiplierFor rules category appliesTo = 1) ∧
    calculatePrice catalogNoEssay od90 = 90 := by
  refine ⟨calculatePrice_eq_product, ?_, ?_⟩
  · intro rules category appliesTo h
    unfold multiplierFor
    rw [h]
  · simp [calculatePrice, catalogNoEssay, findOneRule, findBaseRule, basePricePerPageOf,
      od90, phdRule, urgencyStdRule, complexityStdRule, jsOrStr, jsOrNum,
      List.find?, catEducationLevel, catTaskType, catUrgency, catComplexity,
      catCitationStyle, baseRuleName, strStandard, strNone, round2, jsRound]
    norm_num

/-- Witness for C8 at concrete inputs: the missing `task_type: essay` lookup
contributes multiplier 1. -/
theorem c8_missing_rule_fallback_witness :
    multiplierFor catalogNoEssay catTaskType strEssay = 1 :=
  c8_missing_rule_fallback.2.1 catalogNoEssay catTaskType strEssay (by decide)

/-- C10: an active `base_price_per_page` rule with stored `basePrice = 0` is
falsy in `baseRule.basePrice || basePricePerPage`, so the default 15 is used;
the effective per-page base rate is never 0. -/
theorem c10_base_rate_fallback :
    (∀ rules r, findBaseRule rules = some r → r.basePrice = 0 →
        basePricePerPageOf rules = 15) ∧
    (∀ rules, basePricePerPageOf rules ≠ 0) ∧
    calculatePrice [zeroBaseRule] odPlain = 15 := by
  refine ⟨?_, ?_, ?_⟩
  · intro rules r h h0
    unfold basePricePerPageOf
    rw [h]
    simp [h0]
  · intro rules
    unfold basePricePerPageOf
    rcases h : findBaseRule rules with _ | r
    · show (15 : ℚ) ≠ 0
      norm_num
    · show (if r.basePrice = 0 then (15 : ℚ) else r.basePrice) ≠ 0
      split_ifs with h0
      · norm_num
      · exact h0
  · simp [calculatePrice, findOneRule, findBaseRule, basePricePerPageOf, odPlain,
      zeroBaseRule, jsOrStr, jsOrNum, List.find?, catEducationLevel, catTaskType,
      catUrgency, catComplexity, catCitationStyle, catPageCount, baseRuleName,
      strStandard, strEssay, round2, jsRound]
    norm_num

/-- Witness for C10 at concrete inputs: a stored base price of 0 yields the
default rate 15, and the empty catalog's rate is nonzero. -/
theorem c10_base_rate_fallback_witness :
    basePricePerPageOf [zeroBaseRule] = 15 ∧ basePricePerPageOf [] ≠ 0 :=
  ⟨c10_base_rate_fallback.1 [zeroBaseRule] zeroBaseRule (by decide) rfl,
   c10_base_rate_fallback.2.1 []⟩

/-- Converting the hour threshold comparison to milliseconds. -/
theorem hours_le_iff (d n : ℤ) (c : ℚ) (m : ℤ) (hm : c * (1000 * 60 * 60) = (m : ℚ)) :
    hoursUntilDeadline d n ≤ c ↔ d - n ≤ m := by
  unfold hoursUntilDeadline
  rw [div_le_iff₀ (by norm_num : (0 : ℚ) < 1000 * 60 * 60), hm]
  exact Int.cast_le

/-- The urgency thresholds of `createOrder`, phrased over the millisecond
difference `deadline - now`. -/
theorem deriveUrgency_spec (d n : ℤ) :
    (deriveUrgency d n = strUrgent ↔ d - n ≤ 86400000) ∧
    (deriveUrgency d n = strRush ↔ 86400000 < d - n ∧ d - n ≤ 259200000) ∧
    (deriveUrgency d n = strStandard ↔ 259200000 < d - n) := by
  have h24 := hours_le_iff d n 24 86400000 (by norm_num)
  have h72 := hours_le_iff d n 72 259200000 (by norm_num)
  by_cases hA : hoursUntilDeadline d n ≤ 24
  · have hA' := h24.mp hA
    simp only [deriveUrgency, if_pos hA]
    refine ⟨⟨fun _ => hA', fun _ => by trivial⟩, ?_, ?_⟩
    · constructor
      · intro he
        exact absurd he (by decide)
      · rintro ⟨h1, -⟩
        exact absurd hA' (not_le.mpr h1)
    · constructor
      · intro he
        exact absurd he (by decide)
      · intro h1
        exact absurd hA' (not_le.mpr (by omega))
  · by_cases hB : hoursUntilDeadline d n ≤ 72
    · have hB' := h72.mp hB
      have hA' : 86400000 < d - n := by
        by_contra hc
        exact hA (h24.mpr (by omega))
      simp only [deriveUrgency, if_neg hA, if_pos hB]
      refine ⟨?_, ⟨fun _ => ⟨hA', hB'⟩, fun _ => by trivial⟩, ?_⟩
      · constructor
        · intro he
          exact absurd he (by decide)
        · intro h1
          exact absurd hA' (by omega)
      · constructor
        · intro he
          exact absurd he (by decide)
        · intro h1
          exact absurd hB' (not_le.mpr h1)
    · have hB' : 259200000 < d - n := by
        by_contra hc
        exact hB (h72.mpr (by omega))
      simp only [deriveUrgency, if_neg hA, if_neg hB]
      refine ⟨?_, ?_, ⟨fun _ => hB', fun _ => by trivial⟩⟩
      · constructor
        · intro he
          exact absurd he (by decide)
        · intro h1
          exact absurd h1 (by omega)
      · constructor
        · intro he
          exact absurd he (by decide)
        · rintro ⟨-, h2⟩
          exact absurd h2 (not_le.mpr hB')

/-- Catalog holding only `urgency: urgent → 2.0`. -/
def urgentDoubleRule : PricingRule :=
  { name := "mult_urgent", category := catUrgency, appliesTo := strUrgent,
    multiplier := 2, basePrice := 0, isActive := true }

def c3rules : List PricingRule := [urgentDoubleRule]

/-- A creation body with no caller-supplied urgency and a deadline 10 hours
(36000000 ms) away. -/
def c3body : CreateBody :=
  { educationLevel := "phd", taskType := strEssay, urgency := none,
    complexityLevel := none, citationStyle := none, pageCount := some 1,
    deadline := 36000000 }

/-- The counterexample body's pricing attributes with the derived urgency
substituted in. -/
def c3odUrgent : OrderData := { toPricingData c3body with urgency := some strUrgent }

/-- C3 counterexample: with only an `urgency: urgent → 2.0` rule and a
deadline 10 hours away, `createOrder` stores urgency `urgent` but prices the
order at 15 (the lookup ran on the caller's absent urgency, defaulting to
`standard`), while pricing with the stored urgency would give 30: the stored
price is not computed from the derived urgency. -/
theorem c3_counterexample :
    (prepareOrderData c3rules c3body 0).urgency = strUrgent ∧
    (prepareOrderData c3rules c3body 0).totalPrice = 15 ∧
    calculatePrice c3rules c3odUrgent = 30 := by
  refine ⟨?_, ?_, ?_⟩
  · simp [prepareOrderData, deriveUrgency, hoursUntilDeadline, c3body]
    norm_num [strUrgent]
  · simp [prepareOrderData, calculatePrice, toPricingData, c3rules, c3body,
      urgentDoubleRule, findOneRule, findBaseRule, basePricePerPageOf, jsOrStr,
      jsOrNum, List.find?, catEducationLevel, catTaskType, catUrgency,
      catComplexity, baseRuleName, strStandard, strUrgent, strEssay,
      round2, jsRound]
    norm_num
  · rw [calculatePrice_eq_product]
    have e1 : basePricePerPageOf c3rules = 15 := rfl
    have e2 : jsOrNum c3odUrgent.pageCount 1 = 1 := rfl
    have e3 : multiplierFor c3rules catEducationLevel c3odUrgent.educationLevel = 1 := rfl
    have e4 : multiplierFor c3rules catTaskType c3odUrgent.taskType = 1 := rfl
    have e5 : multiplierFor c3rules catUrgency (jsOrStr c3odUrgent.urgency strStandard) = 2 := rfl
    have e6 : multiplierFor c3rules catComplexity
        (jsOrStr c3odUrgent.complexityLevel strStandard) = 1 := rfl
    have e7 : citationFactor c3rules c3odUrgent = 1 := rfl
    rw [e1, e2, e3, e4, e5, e6, e7]
    norm_num [round2, jsRound]

/-- C3 amended: at creation, urgency is derived from the deadline exactly by
the 24h/72h thresholds and unconditionally replaces any caller-supplied
urgency, but the stored price is the one computed from the body as supplied
(the caller's urgency slot, defaulting to `standard`), not from the derived
urgency. -/
theorem c3_amended_urgency_derivation :
    ∀ (rules : List PricingRule) (b : CreateBody) (now : ℤ),
      (prepareOrderData rules b now).urgency = deriveUrgency b.deadline now ∧
      (prepareOrderData rules b now).totalPrice = calculatePrice rules (toPricingData b) ∧
      (prepareOrderData rules b now).basePrice = calculatePrice rules (toPricingData b) ∧
      (deriveUrgency b.deadline now = strUrgent ↔ b.deadline - now ≤ 86400000) ∧
      (deriveUrgency b.deadline now = strRush ↔
        86400000 < b.deadline - now ∧ b.deadline - now ≤ 259200000) ∧
      (deriveUrgency b.deadline now = strStandard ↔ 259200000 < b.deadline - now) := by
  intro rules b now
  have hs := deriveUrgency_spec b.deadline now
  refine ⟨rfl, rfl, ?_, hs.1, hs.2.1, hs.2.2⟩
  show calculatePrice rules (toPricingData b) / 1 = calculatePrice rules (toPricingData b)
  exact div_one _

/-- Witness for C3 amended at concrete inputs: the stored urgency of the
counterexample body is the derived one. -/
theorem c3_amended_witness :
    (prepareOrderData c3rules c3body 0).urgency = deriveUrgency c3body.deadline 0 :=
  (c3_amended_urgency_derivation c3rules c3body 0).1

/-- A generator that collides on every attempt. -/
def allDup : ℕ → AttemptResult := fun _ => AttemptResult.dupKeyOrderNumber

/-- C4 counterexample: three consecutive `orderNumber` collisions exhaust the
loop, and the exhausted-loop response is byte-for-byte identical to the
generic catch-all server failure response — exhaustion is not reported as a
distinct failure kind. -/
theorem c4_counterexample :
    createWithRetry allDup = CreateResult.exhausted ∧
    createFailureResponse CreateResult.exhausted =
      createFailureResponse CreateResult.unexpectedFailure := by
  constructor
  · rfl
  · rfl

/-- C4 amended: creation retries only on an `orderNumber` uniqueness
violation, with at most 3 total `Order.create` attempts; any other failure
aborts immediately; exhaustion persists no order, but is reported with the
same 500 response as a generic server failure, not as a distinct kind. -/
theorem c4_amended_retry_policy :
    ∀ outcomes : ℕ → AttemptResult,
      (outcomes 0 = AttemptResult.success →
        createWithRetry outcomes = CreateResult.created 1) ∧
      (outcomes 0 = AttemptResult.dupKeyOrderNumber →
        outcomes 1 = AttemptResult.dupKeyOrderNumber →
        outcomes 2 = AttemptResult.success →
        createWithRetry outcomes = CreateResult.created 3) ∧
      ((∀ i, i < 3 → outcomes i = AttemptResult.dupKeyOrderNumber) →
        createWithRetry outcomes = CreateResult.exhausted ∧
        persistsOrder (createWithRetry outcomes) = false) ∧
      (outcomes 0 = AttemptResult.otherFailure →
        createWithRetry outcomes = CreateResult.unexpectedFailure) ∧
      (∀ n, createWithRetry outcomes = CreateResult.created n → 1 ≤ n ∧ n ≤ 3) ∧
      createFailureResponse CreateResult.exhausted =
        createFailureResponse CreateResult.unexpectedFailure := by
  intro outcomes
  refine ⟨?_, ?_, ?_, ?_, ?_, rfl⟩
  · intro h0
    simp [createWithRetry, createLoop, h0]
  · intro h0 h1 h2
    simp [createWithRetry, createLoop, h0, h1, h2]
  · intro h
    have h0 := h 0 (by norm_num)
    have h1 := h 1 (by norm_num)
    have h2 := h 2 (by norm_num)
    constructor
    · simp [createWithRetry, createLoop, h0, h1, h2]
    · simp [createWithRetry, createLoop, h0, h1, h2, persistsOrder]
  · intro h0
    simp [createWithRetry, createLoop, h0]
  · intro n
    rcases h0 : outcomes 0 with _ | _ | _ <;>
      rcases h1 : outcomes 1 with _ | _ | _ <;>
        rcases h2 : outcomes 2 with _ | _ | _ <;>
          (intro h
           simp [createWithRetry, createLoop, h0, h1, h2] at h
           try omega)

/-- Witness for C4 amended at concrete inputs: three collisions exhaust the
budget without persisting an order. -/
theorem c4_amended_witness :
    createWithRetry allDup = CreateResult.exhausted ∧
    persistsOrder (createWithRetry allDup) = false :=
  (c4_amended_retry_policy allDup).2.2.1 fun _ _ => rfl

/-- An administrator actor who does not own the orders below. -/
def adminUser : User := { id := 1, role := roleAdmin }

/-- The owning student actor for the orders below. -/
def ownerUser : User := { id := 2, role := "student" }

/-- A completed order owned by `ownerUser`, not yet reviewed. -/
def completedOrder : Order :=
  { student := 2, status := Status.completed,
    statusHistory :=
      [{ status := Status.pending, timestamp := 0, note := msgOrderCreated },
       { status := Status.completed, timestamp := 5, note := msgStatusUpdatedByAdmin }],
    additionalInstructions := "", adminNotes := "", progress := 100,
    rating := none, review := "", reviewedAt := none }

/-- A pending order owned by `ownerUser`. -/
def pendingOrder : Order :=
  { student := 2, status := Status.pending,
    statusHistory := [{ status := Status.pending, timestamp := 0, note := msgOrderCreated }],
    additionalInstructions := "", adminNotes := "", progress := 0,
    rating := none, review := "", reviewedAt := none }

/-- The status of a successful lifecycle-operation result. -/
def resultStatus : OpResult → Option Status
  | .ok o => some o.status
  | .err _ _ => none

/-- An update body that only asks to move the order to `in_progress`. -/
def reopenBody : UpdateBody :=
  { status := some Status.in_progress, additionalInstructions := none,
    adminNotes := none, progress := none, statusNote := none }

/-- An update body that only asks for cancellation. -/
def cancelBody : UpdateBody :=
  { status := some Status.cancelled, additionalInstructions := none,
    adminNotes := none, progress := none, statusNote := none }

/-- An update body that only sets `progress`. -/
def progressBody : UpdateBody :=
  { status := none, additionalInstructions := none, adminNotes := none,
    progress := some 50, statusNote := none }

/-- C1 counterexample: an administrator's `updateOrder` on a `completed`
order happily transitions it back to `in_progress` and appends a history
entry — the admin branch has no terminal-state check, so the terminal lock
does not hold for every actor role. -/
theorem c1_counterexample :
    updateOrder adminUser completedOrder reopenBody 9 =
      OpResult.ok { completedOrder with
        status := Status.in_progress
        statusHistory := completedOrder.statusHistory ++
          [{ status := Status.in_progress, timestamp := 9,
             note := msgStatusUpdatedByAdmin }] } ∧
    Status.in_progress ≠ Status.completed := by
  constructor
  · rfl
  · decide

/-- C1 amended: for a terminal (`completed` or `cancelled`) order, the
owner's cancellation request through `updateOrder` and `cancelOrder` both
fail with the 400 conflict response (leaving the persisted order untouched),
but an administrator's `updateOrder` can still transition the order to any
different status. -/
theorem c1_amended_terminal_lock :
    ∀ (u : User) (o : Order) (b : UpdateBody) (reason : Option String) (now : ℤ),
      (o.status = Status.completed ∨ o.status = Status.cancelled) →
      ((o.student = u.id → u.role ≠ roleAdmin → b.status = some Status.cancelled →
          updateOrder u o b now = OpResult.err 400 msgCannotCancelThis) ∧
       (o.student = u.id →
          cancelOrder u o reason now = OpResult.err 400 msgOrderCannotBeCancelled) ∧
       (u.role = roleAdmin → ∀ s, b.status = some s → s ≠ o.status →
          resultStatus (updateOrder u o b now) = some s)) := by
  intro u o b reason now hterm
  refine ⟨?_, ?_, ?_⟩
  · intro hown hrole hbs
    simp only [updateOrder, hown, hrole, hbs]
    simp [hterm]
  · intro hown
    simp only [cancelOrder, hown]
    simp [hterm]
  · intro hrole s hbs hne
    rcases han : b.adminNotes with _ | nts <;> rcases hap : b.progress with _ | p <;>
      simp [updateOrder, resultStatus, hrole, hbs, hne, han, hap]

/-- C5 counterexample: an owner's update request that only sets `progress`
is not rejected as forbidden — it succeeds and silently ignores the field,
returning the order unchanged. -/
theorem c5_counterexample :
    updateOrder ownerUser pendingOrder progressBody 1 = OpResult.ok pendingOrder ∧
    progressBody.progress = some 50 ∧
    pendingOrder.progress = 0 := by
  refine ⟨rfl, rfl, rfl⟩

/-- C5 amended: a non-administrator owner's update can only cancel the order
and overwrite `additionalInstructions`; a request naming any other status is
rejected as forbidden; all other fields in the request body are silently
ignored, leaving every other order field unchanged (the request succeeds). -/
theorem c5_amended_owner_restrictions :
    ∀ (u : User) (o : Order) (b : UpdateBody) (now : ℤ),
      o.student = u.id → u.role ≠ roleAdmin →
      ((∀ s, b.status = some s → s ≠ Status.cancelled →
          updateOrder u o b now = OpResult.err 403 msgStudentsOnlyCancel) ∧
       (∀ o', updateOrder u o b now = OpResult.ok o' →
          o'.student = o.student ∧ o'.adminNotes = o.adminNotes ∧
          o'.progress = o.progress ∧ o'.rating = o.rating ∧
          o'.review = o.review ∧ o'.reviewedAt = o.reviewedAt ∧
          (o'.status = o.status ∨ o'.status = Status.cancelled) ∧
          (b.additionalInstructions = none →
            o'.additionalInstructions = o.additionalInstructions) ∧
          (b.status = none → o'.status = o.status ∧
            o'.statusHistory = o.statusHistory))) := by
  intro u o b now hown hrole
  constructor
  · intro s hbs hs
    simp [updateOrder, hown, hrole, hbs, hs]
  · intro o' h
    rcases hbs : b.status with _ | s
    · rcases hai : b.additionalInstructions with _ | ins
      · simp [updateOrder, hown, hrole, hbs, hai, applyInstructions] at h
        subst h
        simp [hbs, hai, hown]
      · by_cases hins : ins = ""
        · simp [updateOrder, hown, hrole, hbs, hai, applyInstructions, hins] at h
          subst h
          simp [hbs, hai, hown]
        · simp [updateOrder, hown, hrole, hbs, hai, applyInstructions, hins] at h
          subst h
          simp [hbs, hai, hown]
    · by_cases hsc : s = Status.cancelled
      · subst hsc
        by_cases hterm : o.status = Status.completed ∨ o.status = Status.cancelled
        · simp [updateOrder, hown, hrole, hbs, hterm] at h
        · rcases hai : b.additionalInstructions with _ | ins
          · simp [updateOrder, hown, hrole, hbs, hai, hterm, applyInstructions] at h
            subst h
            simp [hbs, hai, hown]
          · by_cases hins : ins = ""
            · simp [updateOrder, hown, hrole, hbs, hai, hterm, applyInstructions, hins] at h
              subst h
              simp [hbs, hai, hown]
            · simp [updateOrder, hown, hrole, hbs, hai, hterm, applyInstructions, hins] at h
              subst h
              simp [hbs, hai, hown]
      · simp [updateOrder, hown, hrole, hbs, hsc] at h

/-- Witness for C1 amended at concrete inputs: the owner's cancellation of a
completed order is rejected with the 400 conflict response. -/
theorem c1_amended_witness :
    updateOrder ownerUser completedOrder cancelBody 3 =
      OpResult.err 400 msgCannotCancelThis :=
  (c1_amended_terminal_lock ownerUser completedOrder cancelBody none 3
    (Or.inl rfl)).1 rfl (by decide) rfl

/-- Witness for C5 amended at concrete inputs: the owner's request for a
forward transition on a pending order is rejected as forbidden. -/
theorem c5_amended_witness :
    updateOrder ownerUser pendingOrder reopenBody 2 =
      OpResult.err 403 msgStudentsOnlyCancel :=
  (c5_amended_owner_restrictions ownerUser pendingOrder reopenBody 2 rfl
    (by decide)).1 Status.in_progress rfl (by decide)

/-- C6 counterexample: a non-owner administrator calling `cancelOrder` on a
pending order is rejected with the 403 forbidden response — `cancelOrder`
checks ownership only and never consults the role, so it does not succeed
for administrators. -/
theorem c6_counterexample :
    cancelOrder adminUser pendingOrder none 3 =
      OpResult.err 403 msgNotAuthorizedCancel ∧
    adminUser.role = roleAdmin ∧ adminUser.id ≠ pendingOrder.student := by
  refine ⟨rfl, rfl, by decide⟩

/-- C6 amended: `cancelOrder` succeeds only for the order's owner on a
non-terminal order (setting `cancelled` and appending one history entry);
every non-owner caller — administrators included — is rejected as forbidden,
and a terminal order yields the 400 conflict response. -/
theorem c6_amended_cancel_owner_only :
    ∀ (u : User) (o : Order) (reason : Option String) (now : ℤ),
      (o.student ≠ u.id →
        cancelOrder u o reason now = OpResult.err 403 msgNotAuthorizedCancel) ∧
      (o.student = u.id → (o.status = Status.completed ∨ o.status = Status.cancelled) →
        cancelOrder u o reason now = OpResult.err 400 msgOrderCannotBeCancelled) ∧
      (o.student = u.id → o.status ≠ Status.completed → o.status ≠ Status.cancelled →
        cancelOrder u o reason now = OpResult.ok { o with
          status := Status.cancelled
          statusHistory := o.statusHistory ++
            [{ status := Status.cancelled, timestamp := now,
               note := jsOrStr reason msgCancelledByStudent }] }) := by
  intro u o reason now
  refine ⟨?_, ?_, ?_⟩
  · intro hne
    simp [cancelOrder, hne]
  · intro hown hterm
    simp [cancelOrder, hown, hterm]
  · intro hown h1 h2
    simp [cancelOrder, hown, h1, h2]

/-- Witness for C6 amended at concrete inputs: the owner cancels their
pending order. -/
theorem c6_amended_witness :
    cancelOrder ownerUser pendingOrder none 4 =
      OpResult.ok { pendingOrder with
        status := Status.cancelled
        statusHistory := pendingOrder.statusHistory ++
          [{ status := Status.cancelled, timestamp := 4,
             note := msgCancelledByStudent }] } :=
  (c6_amended_cancel_owner_only ownerUser pendingOrder none 4).2.2 rfl
    (by decide) (by decide)

def sampleReview : String := "clear and thorough work"

/-- C7: `reviewOrder` succeeds exactly when the caller owns the order, the
order is `completed`, and `rating` is still null; success sets `rating`,
`review` and `reviewedAt` in the one saved write, touches neither `status`
nor `statusHistory`, and a second review attempt on the resulting order
fails with the 400 conflict response. -/
theorem c7_review_write_once :
    ∀ (u : User) (o : Order) (r r2 : ℕ) (v v2 : String) (t t2 : ℤ),
      ((∃ o', reviewOrder u o r v t = OpResult.ok o') ↔
        (o.student = u.id ∧ o.status = Status.completed ∧ o.rating = none)) ∧
      (∀ o', reviewOrder u o r v t = OpResult.ok o' →
        o'.rating = some r ∧ o'.review = v ∧ o'.reviewedAt = some t ∧
        o'.statusHistory = o.statusHistory ∧ o'.status = o.status ∧
        o'.student = o.student ∧
        reviewOrder u o' r2 v2 t2 = OpResult.err 400 msgAlreadyReviewed) := by
  intro u o r r2 v v2 t t2
  constructor
  · constructor
    · rintro ⟨o', h⟩
      by_cases h1 : o.student = u.id
      · by_cases h2 : o.status = Status.completed
        · by_cases h3 : o.rating = none
          · exact ⟨h1, h2, h3⟩
          · simp [reviewOrder, h1, h2, h3] at h
        · simp [reviewOrder, h1, h2] at h
      · simp [reviewOrder, h1] at h
    · rintro ⟨h1, h2, h3⟩
      refine ⟨{ o with rating := some r, review := v, reviewedAt := some t }, ?_⟩
      simp [reviewOrder, h1, h2, h3]
  · intro o' h
    by_cases h1 : o.student = u.id
    · by_cases h2 : o.status = Status.completed
      · by_cases h3 : o.rating = none
        · simp [reviewOrder, h1, h2, h3] at h
          subst h
          simp [reviewOrder, h1, h2, h3]
        · simp [reviewOrder, h1, h2, h3] at h
      · simp [reviewOrder, h1, h2] at h
    · simp [reviewOrder, h1] at h

/-- Witness for C7 at concrete inputs: reviewing a completed, unreviewed,
owned order succeeds. -/
theorem c7_review_write_once_witness :
    ∃ o', reviewOrder ownerUser completedOrder 5 sampleReview 7 = OpResult.ok o' :=
  (c7_review_write_once ownerUser completedOrder 5 4 sampleReview sampleReview
    7 8).1.mpr ⟨rfl, rfl, rfl⟩

/-- `applyInstructions` touches only `additionalInstructions`. -/
theorem applyInstructions_spec (o : Order) (b : UpdateBody) :
    (applyInstructions o b).statusHistory = o.statusHistory ∧
    (applyInstructions o b).status = o.status := by
  rcases h : b.additionalInstructions with _ | s
  · simp [applyInstructions, h]
  · simp only [applyInstructions, h]
    split
    · exact ⟨rfl, rfl⟩
    · exact ⟨rfl, rfl⟩

/-- `applyInstructions` preserves the history invariant. -/
theorem historyOk_applyInstructions (o : Order) (b : UpdateBody) (h : historyOk o) :
    historyOk (applyInstructions o b) := by
  have hs := applyInstructions_spec o b
  unfold historyOk at h ⊢
  rw [hs.1, hs.2]
  exact h

/-- C9: creation establishes the history invariant (non-empty history whose
last entry carries the current status); every successful `updateOrder`,
`cancelOrder` and `reviewOrder` result preserves it; an admin update naming
the current status appends nothing and succeeds, while an actual status
change appends exactly the one new entry. -/
theorem c9_history_invariant :
    (∀ (o : Order) (now : ℤ), historyOk (preSaveNew o now)) ∧
    (∀ (u : User) (o : Order) (b : UpdateBody) (now : ℤ) (o' : Order),
      historyOk o → updateOrder u o b now = OpResult.ok o' → historyOk o') ∧
    (∀ (u : User) (o : Order) (reason : Option String) (now : ℤ) (o' : Order),
      historyOk o → cancelOrder u o reason now = OpResult.ok o' → historyOk o') ∧
    (∀ (u : User) (o : Order) (r : ℕ) (v : String) (t : ℤ) (o' : Order),
      historyOk o → reviewOrder u o r v t = OpResult.ok o' → historyOk o') ∧
    (∀ (u : User) (o : Order) (b : UpdateBody) (now : ℤ) (o' : Order),
      u.role = roleAdmin → b.status = some o.status →
      updateOrder u o b now = OpResult.ok o' →
      o'.statusHistory = o.statusHistory ∧ o'.status = o.status) ∧
    (∀ (u : User) (o : Order) (b : UpdateBody) (now : ℤ) (o' : Order) (s : Status),
      u.role = roleAdmin → b.status = some s → s ≠ o.status →
      updateOrder u o b now = OpResult.ok o' →
      o'.statusHistory = o.statusHistory ++
        [{ status := s, timestamp := now,
           note := jsOrStr b.statusNote msgStatusUpdatedByAdmin }] ∧
      o'.status = s) := by
  refine ⟨?_, ?_, ?_, ?_, ?_, ?_⟩
  · intro o now
    simp [historyOk, preSaveNew, List.getLast?_concat]
  · intro u o b now o' hOk h
    by_cases hadm : u.role = roleAdmin
    · rcases hbs : b.status with _ | s
      · rcases han : b.adminNotes with _ | nts <;> rcases hap : b.progress with _ | p <;>
          simp [updateOrder, hadm, hbs, han, hap] at h <;> subst h <;>
          simpa [historyOk] using hOk
      · by_cases hss : s = o.status
        · rcases han : b.adminNotes with _ | nts <;> rcases hap : b.progress with _ | p <;>
            simp [updateOrder, hadm, hbs, han, hap, hss] at h <;> subst h <;>
            simpa [historyOk] using hOk
        · rcases han : b.adminNotes with _ | nts <;> rcases hap : b.progress with _ | p <;>
            simp [updateOrder, hadm, hbs, han, hap, hss] at h <;> subst h <;>
            simp [historyOk, List.getLast?_concat]
    · by_cases howner : o.student = u.id
      · rcases hbs : b.status with _ | s
        · simp [updateOrder, hadm, howner, hbs] at h
          subst h
          exact historyOk_applyInstructions o b hOk
        · by_cases hsc : s = Status.cancelled
          · subst hsc
            by_cases hterm : o.status = Status.completed ∨ o.status = Status.cancelled
            · simp [updateOrder, hadm, howner, hbs, hterm] at h
            · simp [updateOrder, hadm, howner, hbs, hterm] at h
              subst h
              exact historyOk_applyInstructions _ b
                (by simp [historyOk, List.getLast?_concat])
          · simp [updateOrder, hadm, howner, hbs, hsc] at h
      · simp [updateOrder, hadm, howner] at h
  · intro u o reason now o' hOk h
    by_cases h1 : o.student = u.id
    · by_cases hterm : o.status = Status.completed ∨ o.status = Status.cancelled
      · simp [cancelOrder, h1, hterm] at h
      · simp [cancelOrder, h1, hterm] at h
        subst h
        simp [historyOk, List.getLast?_concat]
    · simp [cancelOrder, h1] at h
  · intro u o r v t o' hOk h
    by_cases h1 : o.student = u.id
    · by_cases h2 : o.status = Status.completed
      · by_cases h3 : o.rating = none
        · simp [reviewOrder, h1, h2, h3] at h
          subst h
          simpa [historyOk, h2] using hOk
        · simp [reviewOrder, h1, h2, h3] at h
      · simp [reviewOrder, h1, h2] at h
    · simp [reviewOrder, h1] at h
  · intro u o b now o' hadm hbs h
    rcases han : b.adminNotes with _ | nts <;> rcases hap : b.progress with _ | p <;>
      simp [updateOrder, hadm, hbs, han, hap] at h <;> subst h <;> simp
  · intro u o b now o' s hadm hbs hne h
    rcases han : b.adminNotes with _ | nts <;> rcases hap : b.progress with _ | p <;>
      simp [updateOrder, hadm, hbs, hne, han, hap] at h <;> subst h <;> exact ⟨rfl, rfl⟩

/-- Witness for C9 at concrete inputs: a freshly created pending order
satisfies the history invariant, and the owner's successful cancellation
preserves it. -/
theorem c9_history_invariant_witness :
    historyOk (preSaveNew pendingOrder 0) :=
  c9_history_invariant.1 pendingOrder 0

end Edscribe
